import Mathlib

/-!
Shallow embedding of the task-graph scheduler core
(src/scheduler/handlers.js) and proofs about its handlers.

The entity store's `modify(mutator)` is embedded as a pure function from
the entity to the updated entity, possibly paired with the value captured
by the mutator into an outer variable (the JS mutators re-assign the
captured variable at the top of every invocation, so on CAS-retry the
final value is the one from the winning invocation; `modifyWithRetry`
models that replay discipline explicitly).

Promise timing is embedded by partitioning a handler's effects into the
part awaited by the promise the handler returns (`acked`) and the part
run by promise chains the handler dropped (`detached`): the source's
`blockTaskGraph` does not return its promise (handlers.js line 150), so
everything it does is `detached` work at its two call sites. External
calls that can fail (the queue's `rerunTask` RPC, and the block path as a
whole) are parametrised by a Bool saying whether they succeed.
-/

namespace Scheduler


/-- State of a task-graph entity: the `state` column takes the string
values "running", "blocked" and "finished" in the source. -/
inductive GraphState where
  | running
  | blocked
  | finished
deriving DecidableEq, Repr

/-- A task's terminal `resolution` record, as written by the handlers:
the success and soft-failure paths store `resultUrl`/`logsUrl` from the
message payload, the hard-failure path stores neither. -/
structure Resolution where
  completed : Bool
  success : Bool
  resultUrl : Option String
  logsUrl : Option String
deriving DecidableEq, Repr

/-- The Task entity, with the fields the handlers read or write.
`rerunsLeft` is a JS number, embedded as Int. -/
structure Task where
  taskGraphId : String
  taskId : String
  rerunsLeft : Int
  dependents : List String
  requires : List String
  resolution : Option Resolution
deriving DecidableEq, Repr

/-- The TaskGraph entity, with the fields the handlers read or write.
`requiresLeft` is a JS array of taskIds. -/
structure TaskGraph where
  taskGraphId : String
  state : GraphState
  requiresLeft : List String
  routing : String
deriving DecidableEq, Repr

/-- An outbound event published by the scheduler; `status` is the graph
snapshot (`taskGraph.status()`) at publication time, the final String is
the routing value the publish call is given (`taskGraph.routing`). -/
inductive Event where
  | taskGraphFinished (status : TaskGraph) (routing : String)
  | taskGraphBlocked (status : TaskGraph) (blockingTaskId : String) (routing : String)
deriving DecidableEq, Repr

/-- True exactly on `taskGraphBlocked` events. -/
def Event.isBlocked : Event → Bool
  | .taskGraphBlocked _ _ _ => true
  | _ => false

/-- An RPC made to the external execution queue. -/
inductive QueueCall where
  | rerunTask (taskId : String)
  | scheduleTask (taskId : String)
deriving DecidableEq, Repr

/-- The side effects of part of a handler: queue RPCs and published
events, in order. -/
structure Effects where
  queueCalls : List QueueCall
  events : List Event
deriving DecidableEq, Repr

/-- No effects. -/
def Effects.empty : Effects := { queueCalls := [], events := [] }

/-- Everything one handler invocation did: the committed Task and
TaskGraph entities, the effects awaited by the promise the handler
returned (`acked`), the effects of dropped promise chains (`detached`),
and whether a dropped chain rejected (`detachedErr`: an unhandled
rejection, invisible to the broker). -/
structure HandlerOutcome where
  task : Task
  graph : TaskGraph
  acked : Effects
  detached : Effects
  detachedErr : Bool
deriving DecidableEq, Repr

/-- Result of a handler invocation: resolve with an outcome, or reject
after having committed the effects recorded in the carried outcome. -/
inductive HandlerResult where
  | ok (outcome : HandlerOutcome)
  | err (emsg : String) (outcome : HandlerOutcome)
deriving DecidableEq, Repr

/-- The committed Task entity of a handler result. -/
def HandlerResult.task : HandlerResult → Task
  | .ok o => o.task
  | .err _ o => o.task

/-- The committed TaskGraph entity of a handler result. -/
def HandlerResult.graph : HandlerResult → TaskGraph
  | .ok o => o.graph
  | .err _ o => o.graph

/-- All queue RPCs made, awaited or detached. -/
def HandlerResult.queueCalls : HandlerResult → List QueueCall
  | .ok o => o.acked.queueCalls ++ o.detached.queueCalls
  | .err _ o => o.acked.queueCalls ++ o.detached.queueCalls

/-- All events published, awaited or detached. -/
def HandlerResult.events : HandlerResult → List Event
  | .ok o => o.acked.events ++ o.detached.events
  | .err _ o => o.acked.events ++ o.detached.events

/-- Events published within the promise chain the handler returned. -/
def HandlerResult.ackedEvents : HandlerResult → List Event
  | .ok o => o.acked.events
  | .err _ o => o.acked.events

/-- Events published by dropped promise chains. -/
def HandlerResult.detachedEvents : HandlerResult → List Event
  | .ok o => o.detached.events
  | .err _ o => o.detached.events

/-- Whether a dropped promise chain rejected. -/
def HandlerResult.detachedErr : HandlerResult → Bool
  | .ok o => o.detachedErr
  | .err _ o => o.detachedErr

/-- Whether the handler's returned promise rejected. -/
def HandlerResult.isError : HandlerResult → Bool
  | .ok _ => false
  | .err _ _ => true

/-- The `status` object of an inbound queue message payload. -/
structure TaskStatus where
  taskId : String
  routing : String
deriving DecidableEq, Repr

/-- Payload of an inbound task-completed / task-failed message. -/
structure Payload where
  status : TaskStatus
  success : Bool
  resultUrl : Option String
  logsUrl : Option String
deriving DecidableEq, Repr

/-- An inbound broker message as seen by the listener callback. -/
structure Message where
  exchange : String
  payload : Payload
deriving DecidableEq, Repr

/-! ## Mutators (the closures passed to `modify`) -/

/-- Mutator of `checkTaskGraphFinished` (handlers.js lines 102-124).
Returns the mutated graph together with the value the closure assigned
to the captured `taskGraphFinishedNow` variable: it is reset to false at
the top, the mutator returns early when the successful task is not in
`requiresLeft`, otherwise the task is removed (lodash `_.without`
removes every occurrence) and the graph is declared finished exactly
when `requiresLeft` became empty. -/
def checkFinishedMutator (successfulTaskId : String) (g : TaskGraph) :
    TaskGraph × Bool :=
  if successfulTaskId ∈ g.requiresLeft then
    let rl := g.requiresLeft.filter (fun t => t ≠ successfulTaskId)
    let finishedNow := rl.length = 0
    ({ g with
        requiresLeft := rl,
        state := if finishedNow then GraphState.finished else g.state },
     finishedNow)
  else
    (g, false)

/-- Mutator of `blockTaskGraph` (handlers.js lines 153-157). Returns the
mutated graph and the value assigned to the captured `wasRunning`
variable. -/
def blockMutator (g : TaskGraph) : TaskGraph × Bool :=
  let wasRunning := g.state = GraphState.running
  (if wasRunning then { g with state := GraphState.blocked } else g, wasRunning)

/-- Mutator of `rerunTaskOrBlock` (handlers.js lines 181-192). Returns
the mutated task and the value assigned to the captured
`has_rerun_available` variable. -/
def rerunMutator (msg : Message) (t : Task) : Task × Bool :=
  let has_rerun_available := 0 < t.rerunsLeft
  let res : Resolution :=
    { completed := true, success := false,
      resultUrl := msg.payload.resultUrl,
      logsUrl := msg.payload.logsUrl }
  (if has_rerun_available then
     { t with rerunsLeft := t.rerunsLeft - 1 }
   else
     { t with resolution := some res },
   has_rerun_available)

/-- The store adapter's `modify` under optimistic-concurrency replay: on
each conflict the entity is reloaded (the states in `conflicts`, in
order) and the mutator re-applied from scratch; the commit happens on
the last reload. The captured variable's final value is the one from the
winning invocation, since each JS mutator above re-assigns it at the top
of its body. -/
def modifyWithRetry {β : Type} (m : TaskGraph → TaskGraph × β) :
    List TaskGraph → TaskGraph → TaskGraph × β
  | [], g => m g
  | g' :: rest, _ => modifyWithRetry m rest g'

/-! ## Handler bodies -/

/-- The full work of `blockTaskGraph` (handlers.js lines 144-170): load
the graph, run the block mutator, and publish `taskGraphBlocked` when
the mutator saw the graph running. `ok = false` embeds a failure in this
path (load, commit or publish rejecting); failure is placed before the
commit, so nothing is changed. Note the source function does not return
this promise chain, so callers receive `undefined` and never await or
observe it. -/
def blockTaskGraphWork (ok : Bool) (blockingTaskId : String)
    (g : TaskGraph) : Except String (TaskGraph × List Event) :=
  if ok then
    let r := blockMutator g
    Except.ok (r.1,
      if r.2 then
        [Event.taskGraphBlocked r.1 blockingTaskId r.1.routing]
      else [])
  else
    Except.error "block path failed"

/-- The awaited work of `checkTaskGraphFinished` (handlers.js lines
97-140): run the finish mutator, and after the commit publish
`taskGraphFinished` with the graph snapshot and its routing when the
captured flag is set. This promise IS returned to the caller. -/
def checkTaskGraphFinishedRun (successfulTaskId : String)
    (g : TaskGraph) : TaskGraph × List Event :=
  let r := checkFinishedMutator successfulTaskId g
  (r.1,
   if r.2 then [Event.taskGraphFinished r.1 r.1.routing] else [])

/-- Handler piece `rerunTaskOrBlock` (handlers.js lines 177-204): one
modify on the task; if a rerun was available ask the queue to rerun
(`rerunOk = false` makes that RPC reject, which the source rethrows),
otherwise invoke `blockTaskGraph` — whose promise is dropped, so its
work is detached and its failure (`blockOk = false`) never rejects the
result. -/
def rerunTaskOrBlock (rerunOk blockOk : Bool) (msg : Message)
    (t : Task) (g : TaskGraph) : HandlerResult :=
  let r := rerunMutator msg t
  if r.2 then
    if rerunOk then
      HandlerResult.ok
        { task := r.1, graph := g,
          acked := { queueCalls := [QueueCall.rerunTask t.taskId], events := [] },
          detached := Effects.empty, detachedErr := false }
    else
      HandlerResult.err "rerun RPC failed"
        { task := r.1, graph := g,
          acked := { queueCalls := [QueueCall.rerunTask t.taskId], events := [] },
          detached := Effects.empty, detachedErr := false }
  else
    match blockTaskGraphWork blockOk t.taskId g with
    | Except.ok res =>
        HandlerResult.ok
          { task := r.1, graph := res.1,
            acked := Effects.empty,
            detached := { queueCalls := [], events := res.2 },
            detachedErr := false }
    | Except.error _ =>
        HandlerResult.ok
          { task := r.1, graph := g,
            acked := Effects.empty,
            detached := Effects.empty, detachedErr := true }

/-- Handler `failed` (handlers.js lines 208-235): set the task's
resolution to `{success:false, completed:false}` (no URLs), then invoke
`blockTaskGraph` with the taskGraphId and the failed task's id from the
message. `blockTaskGraph` returns `undefined`, so although the source
writes `return that.blockTaskGraph(...)`, the handler's promise resolves
without awaiting the block path, whose work is detached. -/
def failedHandler (blockOk : Bool) (msg : Message)
    (t : Task) (g : TaskGraph) : HandlerResult :=
  let blockingTaskId := msg.payload.status.taskId
  let res : Resolution :=
    { completed := false, success := false,
      resultUrl := none, logsUrl := none }
  let t' := { t with resolution := some res }
  match blockTaskGraphWork blockOk blockingTaskId g with
  | Except.ok res =>
      HandlerResult.ok
        { task := t', graph := res.1,
          acked := Effects.empty,
          detached := { queueCalls := [], events := res.2 },
          detachedErr := false }
  | Except.error _ =>
      HandlerResult.ok
        { task := t', graph := g,
          acked := Effects.empty,
          detached := Effects.empty, detachedErr := true }

/-- Modelled from the spec: `helpers.scheduleDependentTasks` lives in
src/scheduler/helpers.js, which is not part of the sources given; per
the spec (section 4.4) it loads each dependent of the task and submits
to the execution queue every dependent all of whose required tasks now
carry a successful resolution. It mutates no entities and publishes no
events; `loadTask` is the committed store view. -/
def scheduleDependentTasks (loadTask : String → Option Task)
    (t : Task) : List QueueCall :=
  t.dependents.filterMap fun d =>
    match loadTask d with
    | some dt =>
        if dt.requires.all (fun r =>
            match loadTask r with
            | some rt =>
                match rt.resolution with
                | some res => res.success
                | none => false
            | none => false) then
          some (QueueCall.scheduleTask d)
        else
          none
    | none => none

/-- Handler `completed` (handlers.js lines 239-279): on success store a
successful resolution, then schedule dependents when the task has any,
else run the graph-finish check (both promise chains are returned, hence
awaited); on `success = false` defer to `rerunTaskOrBlock`. -/
def completedHandler (loadTask : String → Option Task)
    (rerunOk blockOk : Bool) (msg : Message)
    (t : Task) (g : TaskGraph) : HandlerResult :=
  if msg.payload.success then
    let res : Resolution :=
      { completed := true, success := true,
        resultUrl := msg.payload.resultUrl,
        logsUrl := msg.payload.logsUrl }
    let t' := { t with resolution := some res }
    if t.dependents.length ≠ 0 then
      HandlerResult.ok
        { task := t', graph := g,
          acked := { queueCalls := scheduleDependentTasks loadTask t', events := [] },
          detached := Effects.empty, detachedErr := false }
    else
      let r := checkTaskGraphFinishedRun t.taskId g
      HandlerResult.ok
        { task := t', graph := r.1,
          acked := { queueCalls := [], events := r.2 },
          detached := Effects.empty, detachedErr := false }
  else
    rerunTaskOrBlock rerunOk blockOk msg t g

/-- The two exchanges the listener is bound to (handlers.js lines
59-68). -/
structure Bindings where
  completedExchange : String
  failedExchange : String
deriving DecidableEq, Repr

/-- Which handler a message is dispatched to. -/
inductive Dispatch where
  | toCompleted
  | toFailed
deriving DecidableEq, Repr

/-- The listener's message callback (handlers.js lines 71-82): dispatch
on the message's exchange, throwing on an unexpected exchange. -/
def handleMessage (b : Bindings) (m : Message) : Except String Dispatch :=
  if m.exchange = b.completedExchange then
    Except.ok Dispatch.toCompleted
  else if m.exchange = b.failedExchange then
    Except.ok Dispatch.toFailed
  else
    Except.error ("Got message from unexpected exchange: " ++ m.exchange)

def gW : TaskGraph :=
  { taskGraphId := "G", state := GraphState.running,
    requiresLeft := ["T"], routing := "r" }

def gW2 : TaskGraph :=
  { taskGraphId := "G", state := GraphState.running,
    requiresLeft := ["T", "U"], routing := "r" }

def bW : Bindings := { completedExchange := "ce", failedExchange := "fe" }

def mOn (x : String) : Message :=
  { exchange := x,
    payload := { status := { taskId := "T", routing := "s.G.x" },
                 success := true, resultUrl := none, logsUrl := none } }

def tF : Task :=
  { taskGraphId := "G", taskId := "Q", rerunsLeft := 5,
    dependents := ["T"], requires := [], resolution := none }

def msgFQ : Message :=
  { exchange := "fe",
    payload := { status := { taskId := "Q", routing := "s.G.x" },
                 success := false, resultUrl := none, logsUrl := none } }

def tR : Task :=
  { taskGraphId := "G", taskId := "T", rerunsLeft := 2,
    dependents := [], requires := [], resolution := none }

def tZ : Task :=
  { taskGraphId := "G", taskId := "T", rerunsLeft := 0,
    dependents := [], requires := [], resolution := none }

def msgCF : Message :=
  { exchange := "ce",
    payload := { status := { taskId := "T", routing := "s.G.x" },
                 success := false, resultUrl := some "ru", logsUrl := some "lu" } }

def loadNone : String → Option Task := fun _ => none

def msgCT : Message :=
  { exchange := "ce",
    payload := { status := { taskId := "T", routing := "s.G.x" },
                 success := true, resultUrl := some "u", logsUrl := some "l" } }

def tO : Task :=
  { taskGraphId := "G", taskId := "T", rerunsLeft := 1,
    dependents := [], requires := [], resolution := none }

def msgA : Message :=
  { exchange := "ce",
    payload := { status := { taskId := "T", routing := "s.G.x" },
                 success := false, resultUrl := some "a", logsUrl := some "a" } }

def msgB : Message :=
  { exchange := "ce",
    payload := { status := { taskId := "T", routing := "s.G.x" },
                 success := false, resultUrl := some "b", logsUrl := some "b" } }

def gF : TaskGraph :=
  { taskGraphId := "G", state := GraphState.finished,
    requiresLeft := [], routing := "r" }

def tDone : Task :=
  { taskGraphId := "G", taskId := "T", rerunsLeft := 3,
    dependents := [], requires := [],
    resolution := some ⟨false, false, none, none⟩ }

/-! ## Theorems -/

theorem checkFinishedMutator_flag (tid : String) (g : TaskGraph)
    (h : (checkFinishedMutator tid g).2 = true) :
    (checkFinishedMutator tid g).1.state = GraphState.finished := by
  by_cases hm : tid ∈ g.requiresLeft
  · simp only [checkFinishedMutator, hm, if_true] at h ⊢
    by_cases hl : (g.requiresLeft.filter (fun t => t ≠ tid)).length = 0
    · simp only [hl, if_true, if_pos hl]
    · simp only [hl, decide_eq_true_eq] at h
  · simp [checkFinishedMutator, hm] at h

theorem blockMutator_flag (g : TaskGraph)
    (h : (blockMutator g).2 = true) :
    (blockMutator g).1.state = GraphState.blocked := by
  by_cases hr : g.state = GraphState.running
  · simp [blockMutator, hr]
  · simp [blockMutator, hr] at h

theorem checkRun_never_blocks (tid : String) (g : TaskGraph) :
    ((checkTaskGraphFinishedRun tid g).1.state = GraphState.blocked →
      g.state = GraphState.blocked) ∧
    (checkTaskGraphFinishedRun tid g).2.all (fun e => !e.isBlocked) = true := by
  constructor
  · intro hb
    simp only [checkTaskGraphFinishedRun, checkFinishedMutator] at hb
    split at hb
    · simp only at hb
      split at hb
      · cases hb
      · exact hb
    · exact hb
  · simp only [checkTaskGraphFinishedRun]
    split
    · simp [Event.isBlocked]
    · simp

theorem checkRun_not_mem (tid : String) (g : TaskGraph) :
    tid ∉ (checkTaskGraphFinishedRun tid g).1.requiresLeft := by
  by_cases hm : tid ∈ g.requiresLeft <;>
    simp [checkTaskGraphFinishedRun, checkFinishedMutator, hm, List.mem_filter]

theorem checkRun_skips (tid : String) (g' : TaskGraph)
    (h : tid ∉ g'.requiresLeft) :
    checkTaskGraphFinishedRun tid g' = (g', []) := by
  simp [checkTaskGraphFinishedRun, checkFinishedMutator, h]

theorem blockMutator_post_not_running (g : TaskGraph) :
    (blockMutator g).1.state ≠ GraphState.running := by
  by_cases h : g.state = GraphState.running <;> simp [blockMutator, h]

theorem blockMutator_state_cases (g : TaskGraph) :
    (blockMutator g).1 = g ∨
    ((blockMutator g).1.state = GraphState.blocked ∧
      g.state = GraphState.running) := by
  by_cases h : g.state = GraphState.running <;> simp [blockMutator, h]

theorem checkFinishedMutator_state_cases (tid : String) (g : TaskGraph) :
    (checkFinishedMutator tid g).1.state = GraphState.finished ∨
    (checkFinishedMutator tid g).1.state = g.state := by
  by_cases hm : tid ∈ g.requiresLeft
  · by_cases hl : (g.requiresLeft.filter (fun t => t ≠ tid)).length = 0
    · left
      simp only [checkFinishedMutator, hm, if_true, if_pos hl]
    · right
      simp only [checkFinishedMutator, hm, if_true, if_neg hl]
  · right
    simp [checkFinishedMutator, hm]

theorem failedHandler_graph_cases (blockOk : Bool) (msg : Message)
    (t : Task) (g : TaskGraph) :
    (failedHandler blockOk msg t g).graph = g ∨
    (failedHandler blockOk msg t g).graph = (blockMutator g).1 := by
  cases blockOk <;>
    simp [failedHandler, blockTaskGraphWork, HandlerResult.graph]

theorem completedHandler_graph_cases (loadTask : String → Option Task)
    (rerunOk blockOk : Bool) (msg : Message) (t : Task) (g : TaskGraph) :
    (completedHandler loadTask rerunOk blockOk msg t g).graph = g ∨
    (completedHandler loadTask rerunOk blockOk msg t g).graph =
      (blockMutator g).1 ∨
    (completedHandler loadTask rerunOk blockOk msg t g).graph =
      (checkFinishedMutator t.taskId g).1 := by
  by_cases hs : msg.payload.success = true
  · by_cases hd : t.dependents.length = 0
    · right; right
      simp [completedHandler, hs, hd, HandlerResult.graph,
        checkTaskGraphFinishedRun]
    · left
      simp [completedHandler, hs, hd, HandlerResult.graph]
  · by_cases hp : 0 < t.rerunsLeft
    · left
      cases rerunOk <;>
        simp [completedHandler, hs, rerunTaskOrBlock, rerunMutator, hp,
          HandlerResult.graph]
    · cases blockOk with
      | false =>
          left
          simp [completedHandler, hs, rerunTaskOrBlock, rerunMutator, hp,
            blockTaskGraphWork, HandlerResult.graph]
      | true =>
          right; left
          simp [completedHandler, hs, rerunTaskOrBlock, rerunMutator, hp,
            blockTaskGraphWork, HandlerResult.graph]

theorem stepStateBounds (tid : String) (g g' : TaskGraph)
    (h : g' = g ∨ g' = (blockMutator g).1 ∨
      g' = (checkFinishedMutator tid g).1) :
    (g'.state = GraphState.blocked → g.state ≠ GraphState.blocked →
      g.state = GraphState.running) ∧
    (g.state = GraphState.finished → g'.state = GraphState.finished) := by
  rcases h with h | h | h
  · subst h
    exact ⟨fun hb hnb => absurd hb hnb, fun hf => hf⟩
  · subst h
    rcases blockMutator_state_cases g with hc | ⟨hb, hr⟩
    · rw [hc]
      exact ⟨fun hb hnb => absurd hb hnb, fun hf => hf⟩
    · refine ⟨fun _ _ => hr, fun hf => ?_⟩
      rw [hr] at hf
      cases hf
  · subst h
    rcases checkFinishedMutator_state_cases tid g with hc | hc
    · refine ⟨fun hb _ => ?_, fun _ => hc⟩
      rw [hc] at hb
      cases hb
    · rw [hc]
      exact ⟨fun hb hnb => absurd hb hnb, fun hf => hf⟩

/-- Claim C2: for every graph and just-succeeded leaf taskId, the
graph-finish check leaves the graph entity entirely unmutated and
publishes nothing when the taskId is not in `requiresLeft`; otherwise it
removes the taskId from `requiresLeft`, and exactly when the result is
empty it sets the state to finished and publishes exactly one
`taskGraphFinished` event carrying the committed graph snapshot and the
graph's stored routing. -/
theorem checkTaskGraphFinished_spec (tid : String) (g : TaskGraph) :
    (tid ∉ g.requiresLeft → checkTaskGraphFinishedRun tid g = (g, [])) ∧
    (tid ∈ g.requiresLeft → g.requiresLeft.filter (fun t => t ≠ tid) = [] →
      checkTaskGraphFinishedRun tid g =
        ({ g with requiresLeft := [], state := GraphState.finished },
         [Event.taskGraphFinished
            { g with requiresLeft := [], state := GraphState.finished }
            g.routing])) ∧
    (tid ∈ g.requiresLeft → g.requiresLeft.filter (fun t => t ≠ tid) ≠ [] →
      checkTaskGraphFinishedRun tid g =
        ({ g with requiresLeft := g.requiresLeft.filter (fun t => t ≠ tid) },
         [])) := by
  refine ⟨fun hm => ?_, fun hm hl => ?_, fun hm hl => ?_⟩
  · simp [checkTaskGraphFinishedRun, checkFinishedMutator, hm]
  · have hlen : (g.requiresLeft.filter (fun t => t ≠ tid)).length = 0 := by
      rw [hl]; rfl
    simp only [checkTaskGraphFinishedRun, checkFinishedMutator, hm, if_true,
      hl, hlen, if_pos hlen, decide_True, if_true]
    simp
  · have hlen : ¬ (g.requiresLeft.filter (fun t => t ≠ tid)).length = 0 := by
      simpa [List.length_eq_zero] using hl
    simp only [checkTaskGraphFinishedRun, checkFinishedMutator, hm, if_true,
      hlen, if_neg hlen, decide_eq_true_eq, if_false]

/-- Witness for C2 at concrete graphs. -/
theorem checkTaskGraphFinished_spec_witness :
    checkTaskGraphFinishedRun "Z" gW = (gW, []) ∧
    checkTaskGraphFinishedRun "T" gW =
      ({ gW with requiresLeft := [], state := GraphState.finished },
       [Event.taskGraphFinished
          { gW with requiresLeft := [], state := GraphState.finished }
          gW.routing]) ∧
    checkTaskGraphFinishedRun "T" gW2 =
      ({ gW2 with requiresLeft := gW2.requiresLeft.filter (fun t => t ≠ "T") },
       []) :=
  ⟨(checkTaskGraphFinished_spec "Z" gW).1 (by decide),
   (checkTaskGraphFinished_spec "T" gW).2.1 (by decide) (by decide),
   (checkTaskGraphFinished_spec "T" gW2).2.2 (by decide) (by decide)⟩

/-- Claim C9: the listener callback raises an error on any message whose
exchange is neither the task-completed nor the task-failed binding's
exchange, and dispatches messages on those two exchanges to the
`completed` and `failed` handlers respectively. -/
theorem handleMessage_spec (b : Bindings) (m : Message) :
    (m.exchange ≠ b.completedExchange → m.exchange ≠ b.failedExchange →
      handleMessage b m =
        Except.error ("Got message from unexpected exchange: " ++ m.exchange)) ∧
    (m.exchange = b.completedExchange →
      handleMessage b m = Except.ok Dispatch.toCompleted) ∧
    (m.exchange = b.failedExchange → m.exchange ≠ b.completedExchange →
      handleMessage b m = Except.ok Dispatch.toFailed) := by
  refine ⟨fun h1 h2 => ?_, fun h => ?_, fun h1 h2 => ?_⟩
  · simp [handleMessage, h1, h2]
  · simp [handleMessage, h]
  · unfold handleMessage
    rw [if_neg h2, if_pos h1]

/-- Witness for C9 at concrete bindings and messages. -/
theorem handleMessage_spec_witness :
    handleMessage bW (mOn "other") =
      Except.error ("Got message from unexpected exchange: " ++ "other") ∧
    handleMessage bW (mOn "ce") = Except.ok Dispatch.toCompleted ∧
    handleMessage bW (mOn "fe") = Except.ok Dispatch.toFailed :=
  ⟨(handleMessage_spec bW (mOn "other")).1 (by decide) (by decide),
   (handleMessage_spec bW (mOn "ce")).2.1 (by decide),
   (handleMessage_spec bW (mOn "fe")).2.2 (by decide) (by decide)⟩

/-- Claim C5: the `failed` handler sets the task's resolution to
completed=false/success=false with no URLs, leaves `rerunsLeft`
unchanged, makes no queue RPC at all (in particular never `rerunTask`),
and performs the graph-block transition keyed by the failed task's id
from the message, publishing one `taskGraphBlocked` event exactly when
the graph was running. -/
theorem failedHandler_spec (blockOk : Bool) (msg : Message) (t : Task)
    (g : TaskGraph) :
    (failedHandler blockOk msg t g).task =
      { t with resolution := some ⟨false, false, none, none⟩ } ∧
    (failedHandler blockOk msg t g).task.rerunsLeft = t.rerunsLeft ∧
    (failedHandler blockOk msg t g).queueCalls = [] ∧
    (blockOk = true →
      (failedHandler blockOk msg t g).graph = (blockMutator g).1 ∧
      (g.state = GraphState.running →
        (failedHandler blockOk msg t g).events =
          [Event.taskGraphBlocked { g with state := GraphState.blocked }
             msg.payload.status.taskId g.routing]) ∧
      (g.state ≠ GraphState.running →
        (failedHandler blockOk msg t g).events = [])) := by
  cases blockOk with
  | false =>
      simp [failedHandler, blockTaskGraphWork, HandlerResult.task,
        HandlerResult.queueCalls, Effects.empty]
  | true =>
      by_cases hr : g.state = GraphState.running <;>
        simp [failedHandler, blockTaskGraphWork, blockMutator, hr,
          HandlerResult.task, HandlerResult.queueCalls, HandlerResult.graph,
          HandlerResult.events, Effects.empty]

/-- Witness for C5 at a concrete running graph. -/
theorem failedHandler_spec_witness :
    (failedHandler true msgFQ tF gW).graph = (blockMutator gW).1 ∧
    (failedHandler true msgFQ tF gW).events =
      [Event.taskGraphBlocked { gW with state := GraphState.blocked }
         msgFQ.payload.status.taskId gW.routing] :=
  ⟨((failedHandler_spec true msgFQ tF gW).2.2.2 rfl).1,
   ((failedHandler_spec true msgFQ tF gW).2.2.2 rfl).2.1 (by decide)⟩

/-- Claim C3: on a completed message with success=false, a single modify
decrements `rerunsLeft` and leaves the resolution untouched when
`rerunsLeft > 0`, after which the queue's `rerunTask` is invoked and an
RPC failure propagates as a handler error; when `rerunsLeft = 0` the
mutator instead records the soft-failure resolution with the message's
URLs, performs no decrement (so `rerunsLeft` never goes negative), and
the graph is transitioned to blocked keyed by this taskId. -/
theorem rerunTaskOrBlock_spec (rerunOk blockOk : Bool) (msg : Message)
    (t : Task) (g : TaskGraph) :
    (0 < t.rerunsLeft →
      (rerunTaskOrBlock rerunOk blockOk msg t g).task =
        { t with rerunsLeft := t.rerunsLeft - 1 } ∧
      (rerunTaskOrBlock rerunOk blockOk msg t g).task.resolution =
        t.resolution ∧
      (rerunTaskOrBlock rerunOk blockOk msg t g).queueCalls =
        [QueueCall.rerunTask t.taskId] ∧
      (rerunTaskOrBlock rerunOk blockOk msg t g).graph = g ∧
      (rerunTaskOrBlock rerunOk blockOk msg t g).isError = !rerunOk) ∧
    (t.rerunsLeft = 0 →
      (rerunTaskOrBlock rerunOk blockOk msg t g).task =
        { t with resolution := some ⟨true, false,
            msg.payload.resultUrl, msg.payload.logsUrl⟩ } ∧
      (rerunTaskOrBlock rerunOk blockOk msg t g).task.rerunsLeft =
        t.rerunsLeft ∧
      (rerunTaskOrBlock rerunOk blockOk msg t g).queueCalls = [] ∧
      (blockOk = true →
        (rerunTaskOrBlock rerunOk blockOk msg t g).graph =
          (blockMutator g).1 ∧
        (g.state = GraphState.running →
          (rerunTaskOrBlock rerunOk blockOk msg t g).events =
            [Event.taskGraphBlocked { g with state := GraphState.blocked }
               t.taskId g.routing]) ∧
        (g.state ≠ GraphState.running →
          (rerunTaskOrBlock rerunOk blockOk msg t g).events = []))) ∧
    (0 ≤ t.rerunsLeft →
      0 ≤ (rerunTaskOrBlock rerunOk blockOk msg t g).task.rerunsLeft) := by
  refine ⟨fun hpos => ?_, fun hz => ?_, fun hnn => ?_⟩
  · cases rerunOk <;>
      simp [rerunTaskOrBlock, rerunMutator, hpos, HandlerResult.task,
        HandlerResult.queueCalls, HandlerResult.graph, HandlerResult.isError,
        Effects.empty]
  · have hnpos : ¬ 0 < t.rerunsLeft := by omega
    cases blockOk with
    | false =>
        simp [rerunTaskOrBlock, rerunMutator, hnpos, blockTaskGraphWork,
          HandlerResult.task, HandlerResult.queueCalls, Effects.empty, hz]
    | true =>
        by_cases hr : g.state = GraphState.running <;>
          simp [rerunTaskOrBlock, rerunMutator, hnpos, blockTaskGraphWork,
            blockMutator, hr, HandlerResult.task, HandlerResult.queueCalls,
            HandlerResult.graph, HandlerResult.events, Effects.empty, hz]
  · by_cases hpos : 0 < t.rerunsLeft
    · cases rerunOk <;>
        simp [rerunTaskOrBlock, rerunMutator, hpos, HandlerResult.task] <;>
        omega
    · cases blockOk <;> [skip; by_cases hr : g.state = GraphState.running] <;>
        simp [rerunTaskOrBlock, rerunMutator, hpos, blockTaskGraphWork,
          blockMutator, HandlerResult.task, hnn, *]

/-- Witness for C3 at concrete tasks with and without rerun budget. -/
theorem rerunTaskOrBlock_spec_witness :
    (rerunTaskOrBlock true true msgCF tR gW).task =
      { tR with rerunsLeft := tR.rerunsLeft - 1 } ∧
    (rerunTaskOrBlock false true msgCF tR gW).isError = !false ∧
    (rerunTaskOrBlock true true msgCF tZ gW).task =
      { tZ with resolution := some ⟨true, false,
          msgCF.payload.resultUrl, msgCF.payload.logsUrl⟩ } ∧
    (rerunTaskOrBlock true true msgCF tZ gW).graph = (blockMutator gW).1 ∧
    (rerunTaskOrBlock true true msgCF tZ gW).events =
      [Event.taskGraphBlocked { gW with state := GraphState.blocked }
         tZ.taskId gW.routing] ∧
    0 ≤ (rerunTaskOrBlock true true msgCF tZ gW).task.rerunsLeft :=
  ⟨((rerunTaskOrBlock_spec true true msgCF tR gW).1 (by decide)).1,
   ((rerunTaskOrBlock_spec false true msgCF tR gW).1 (by decide)).2.2.2.2,
   ((rerunTaskOrBlock_spec true true msgCF tZ gW).2.1 (by decide)).1,
   (((rerunTaskOrBlock_spec true true msgCF tZ gW).2.1 (by decide)).2.2.2
      rfl).1,
   (((rerunTaskOrBlock_spec true true msgCF tZ gW).2.1 (by decide)).2.2.2
      rfl).2.1 (by decide),
   (rerunTaskOrBlock_spec true true msgCF tZ gW).2.2 (by decide)⟩

/-- Claim C8: on a completed message with success=true the handler
stores the successful resolution with the message's URLs, then either
attempts dependent scheduling (task has dependents; graph untouched, no
events) or runs the graph-finish check (leaf task), and in no case
moves the graph to blocked or publishes a `taskGraphBlocked` event. -/
theorem completedSuccess_spec (loadTask : String → Option Task)
    (rerunOk blockOk : Bool) (msg : Message) (t : Task) (g : TaskGraph)
    (hs : msg.payload.success = true) :
    (completedHandler loadTask rerunOk blockOk msg t g).task =
      { t with resolution := some ⟨true, true,
          msg.payload.resultUrl, msg.payload.logsUrl⟩ } ∧
    (t.dependents ≠ [] →
      (completedHandler loadTask rerunOk blockOk msg t g).graph = g ∧
      (completedHandler loadTask rerunOk blockOk msg t g).queueCalls =
        scheduleDependentTasks loadTask
          { t with resolution := some ⟨true, true,
              msg.payload.resultUrl, msg.payload.logsUrl⟩ } ∧
      (completedHandler loadTask rerunOk blockOk msg t g).events = []) ∧
    (t.dependents = [] →
      (completedHandler loadTask rerunOk blockOk msg t g).graph =
        (checkTaskGraphFinishedRun t.taskId g).1 ∧
      (completedHandler loadTask rerunOk blockOk msg t g).events =
        (checkTaskGraphFinishedRun t.taskId g).2 ∧
      (completedHandler loadTask rerunOk blockOk msg t g).queueCalls = []) ∧
    ((completedHandler loadTask rerunOk blockOk msg t g).graph.state =
        GraphState.blocked → g.state = GraphState.blocked) ∧
    (completedHandler loadTask rerunOk blockOk msg t g).events.all
      (fun e => !e.isBlocked) = true := by
  by_cases hd : t.dependents = []
  · have hcb := checkRun_never_blocks t.taskId g
    refine ⟨?_, fun h => absurd hd h, fun _ => ⟨?_, ?_, ?_⟩, ?_, ?_⟩
    · simp [completedHandler, hs, hd, HandlerResult.task]
    · simp [completedHandler, hs, hd, HandlerResult.graph]
    · simp [completedHandler, hs, hd, HandlerResult.events, Effects.empty]
    · simp [completedHandler, hs, hd, HandlerResult.queueCalls, Effects.empty]
    · intro h
      apply hcb.1
      simpa [completedHandler, hs, hd, HandlerResult.graph] using h
    · simpa [completedHandler, hs, hd, HandlerResult.events, Effects.empty]
        using hcb.2
  · have hd' : t.dependents.length ≠ 0 := by
      simpa [List.length_eq_zero] using hd
    refine ⟨?_, fun _ => ⟨?_, ?_, ?_⟩, fun h => absurd h hd, ?_, ?_⟩ <;>
      simp [completedHandler, hs, hd', HandlerResult.task, HandlerResult.graph,
        HandlerResult.events, HandlerResult.queueCalls, Effects.empty]

/-- Witness for C8 at a concrete leaf task and a task with dependents. -/
theorem completedSuccess_spec_witness :
    (completedHandler loadNone true true msgCT tR gW).task =
      { tR with resolution := some ⟨true, true,
          msgCT.payload.resultUrl, msgCT.payload.logsUrl⟩ } ∧
    (completedHandler loadNone true true msgCT tR gW).graph =
      (checkTaskGraphFinishedRun tR.taskId gW).1 ∧
    (completedHandler loadNone true true msgCT tF gW).graph = gW :=
  ⟨(completedSuccess_spec loadNone true true msgCT tR gW rfl).1,
   ((completedSuccess_spec loadNone true true msgCT tR gW rfl).2.2.1 rfl).1,
   ((completedSuccess_spec loadNone true true msgCT tF gW rfl).2.1
      (by decide)).1⟩

/-- Claim C1 (code bug, evaluated at concrete inputs): because
`blockTaskGraph` drops its promise, the `failed` handler (and the
rerun-exhausted branch of `completed`) resolves without awaiting the
graph-block commit or the `taskGraphBlocked` publish: with the block
path failing the handler still reports success while the graph stays
running, and with the block path succeeding the blocked event appears
only among the detached effects, never in the awaited ones — contrary
to the claim that the block work completes before the handler acks and
that its failure propagates. -/
theorem blockPathDetached_bug :
    (failedHandler false msgFQ tF gW).isError = false ∧
    (failedHandler false msgFQ tF gW).graph = gW ∧
    (failedHandler false msgFQ tF gW).detachedErr = true ∧
    (failedHandler true msgFQ tF gW).ackedEvents = [] ∧
    (failedHandler true msgFQ tF gW).detachedEvents =
      [Event.taskGraphBlocked { gW with state := GraphState.blocked }
         "Q" gW.routing] ∧
    (rerunTaskOrBlock true false msgCF tZ gW).isError = false ∧
    (rerunTaskOrBlock true false msgCF tZ gW).graph = gW ∧
    (rerunTaskOrBlock true false msgCF tZ gW).detachedErr = true ∧
    (rerunTaskOrBlock true true msgCF tZ gW).ackedEvents = [] ∧
    (rerunTaskOrBlock true true msgCF tZ gW).detachedEvents ≠ [] := by
  decide

/-- Counterexample to C4: from a running graph whose sole remaining
leaf is T, a hard failure of Q blocks the graph, and a subsequent
successful completion of T moves the blocked graph to finished — an
outbound transition from `blocked`, which the claim says is terminal. -/
theorem blockedGraphFinishes_counterexample :
    (failedHandler true msgFQ tF gW).graph.state = GraphState.blocked ∧
    (completedHandler loadNone true true msgCT tR
        (failedHandler true msgFQ tF gW).graph).graph.state =
      GraphState.finished := by
  decide

/-- Claim C4 amended: for every handler invocation, the graph's state
changes to blocked only when it was previously running, and `finished`
admits no outbound transition; unlike the original claim, `blocked` is
not terminal — the graph-finish check can move a blocked graph to
finished (see the counterexample). -/
theorem graphStateTransitions_amended (loadTask : String → Option Task)
    (rerunOk blockOk : Bool) (msg : Message) (t : Task) (g : TaskGraph) :
    ((completedHandler loadTask rerunOk blockOk msg t g).graph.state =
        GraphState.blocked → g.state ≠ GraphState.blocked →
      g.state = GraphState.running) ∧
    ((failedHandler blockOk msg t g).graph.state = GraphState.blocked →
        g.state ≠ GraphState.blocked →
      g.state = GraphState.running) ∧
    (g.state = GraphState.finished →
      (completedHandler loadTask rerunOk blockOk msg t g).graph.state =
          GraphState.finished ∧
        (failedHandler blockOk msg t g).graph.state = GraphState.finished) := by
  have hc := stepStateBounds t.taskId g
    (completedHandler loadTask rerunOk blockOk msg t g).graph
    (completedHandler_graph_cases loadTask rerunOk blockOk msg t g)
  have hf := stepStateBounds t.taskId g (failedHandler blockOk msg t g).graph
    (Or.elim (failedHandler_graph_cases blockOk msg t g) Or.inl
      (fun h => Or.inr (Or.inl h)))
  exact ⟨hc.1, hf.1, fun h => ⟨hc.2 h, hf.2 h⟩⟩

/-- Witness for amended C4 at concrete graphs. -/
theorem graphStateTransitions_amended_witness :
    gW.state = GraphState.running ∧
    (gF.state = GraphState.finished →
      (completedHandler loadNone true true msgCT tR gF).graph.state =
          GraphState.finished ∧
        (failedHandler true msgFQ tF gF).graph.state = GraphState.finished) :=
  ⟨(graphStateTransitions_amended loadNone true true msgCF tZ gW).1
      (by decide) (by decide),
   fun _ =>
     ⟨((graphStateTransitions_amended loadNone true true msgCT tR gF).2.2
        (by decide)).1,
      ((graphStateTransitions_amended loadNone true true msgFQ tF gF).2.2
        (by decide)).2⟩⟩

/-- Counterexample to C6: after a soft failure consumes the last rerun
and sets a resolution, redelivery of the earlier soft-failure message
(with the older run's URLs) overwrites the stored resolution with a
different value. -/
theorem resolutionOverwritten_counterexample :
    ((completedHandler loadNone true true msgB
        (completedHandler loadNone true true msgA tO gW).task
        gW).task.resolution.isSome = true) ∧
    (completedHandler loadNone true true msgA
        (completedHandler loadNone true true msgB
          (completedHandler loadNone true true msgA tO gW).task gW).task
        gW).task.resolution ≠
      (completedHandler loadNone true true msgB
          (completedHandler loadNone true true msgA tO gW).task
          gW).task.resolution := by
  decide

/-- Claim C6 amended: once a task's resolution is set it is never
unset by any later handler invocation (every handler leaves it set);
unlike the original claim it can be overwritten with a different value,
as the counterexample shows. -/
theorem resolutionNeverUnset_amended (loadTask : String → Option Task)
    (rerunOk blockOk : Bool) (msg : Message) (t : Task) (g : TaskGraph)
    (h : t.resolution.isSome = true) :
    (completedHandler loadTask rerunOk blockOk msg t g).task.resolution.isSome
        = true ∧
    (failedHandler blockOk msg t g).task.resolution.isSome = true := by
  constructor
  · by_cases hs : msg.payload.success = true
    · by_cases hd : t.dependents.length = 0 <;>
        simp [completedHandler, hs, hd, HandlerResult.task]
    · by_cases hp : 0 < t.rerunsLeft
      · cases rerunOk <;>
          simp [completedHandler, hs, rerunTaskOrBlock, rerunMutator, hp,
            HandlerResult.task, h]
      · cases blockOk <;>
          simp [completedHandler, hs, rerunTaskOrBlock, rerunMutator, hp,
            blockTaskGraphWork, HandlerResult.task]
  · cases blockOk <;>
      simp [failedHandler, blockTaskGraphWork, HandlerResult.task]

/-- Witness for amended C6 at a task with a resolution already set. -/
theorem resolutionNeverUnset_amended_witness :
    (completedHandler loadNone true true msgCF tDone
        gW).task.resolution.isSome = true ∧
    (failedHandler true msgFQ tDone gW).task.resolution.isSome = true :=
  ⟨(resolutionNeverUnset_amended loadNone true true msgCF tDone gW
      (by decide)).1,
   (resolutionNeverUnset_amended loadNone true true msgFQ tDone gW
      (by decide)).2⟩

/-- Counterexample to C7: replaying a completed(success=false) message
on the state its first handling produced is not free of effects — the
first handling only decrements the rerun budget, the replay then sets a
resolution, blocks the graph and publishes a `taskGraphBlocked`
event. -/
theorem replayNotIdempotent_counterexample :
    ((completedHandler loadNone true true msgA tO gW).events = []) ∧
    (completedHandler loadNone true true msgA
        (completedHandler loadNone true true msgA tO gW).task
        (completedHandler loadNone true true msgA tO gW).graph).task ≠
      (completedHandler loadNone true true msgA tO gW).task ∧
    (completedHandler loadNone true true msgA
        (completedHandler loadNone true true msgA tO gW).task
        (completedHandler loadNone true true msgA tO gW).graph).graph ≠
      (completedHandler loadNone true true msgA tO gW).graph ∧
    (completedHandler loadNone true true msgA
        (completedHandler loadNone true true msgA tO gW).task
        (completedHandler loadNone true true msgA tO gW).graph).events ≠
      [] := by
  decide

/-- Claim C7 amended: handling the same message a second time on the
entity state produced by the first handling yields no further Task or
TaskGraph change and no events for completed(success=true) messages and
for failed messages; completed(success=false) messages are excluded, as
the counterexample shows their replay consumes further rerun budget or
blocks the graph. -/
theorem replayIdempotent_amended (loadTask loadTask2 : String → Option Task)
    (rerunOk rerunOk2 blockOk : Bool) (msg : Message) (t : Task)
    (g : TaskGraph) :
    (msg.payload.success = true →
      (completedHandler loadTask2 rerunOk2 blockOk msg
          (completedHandler loadTask rerunOk blockOk msg t g).task
          (completedHandler loadTask rerunOk blockOk msg t g).graph).task =
        (completedHandler loadTask rerunOk blockOk msg t g).task ∧
      (completedHandler loadTask2 rerunOk2 blockOk msg
          (completedHandler loadTask rerunOk blockOk msg t g).task
          (completedHandler loadTask rerunOk blockOk msg t g).graph).graph =
        (completedHandler loadTask rerunOk blockOk msg t g).graph ∧
      (completedHandler loadTask2 rerunOk2 blockOk msg
          (completedHandler loadTask rerunOk blockOk msg t g).task
          (completedHandler loadTask rerunOk blockOk msg t g).graph).events =
        []) ∧
    ((failedHandler blockOk msg
        (failedHandler blockOk msg t g).task
        (failedHandler blockOk msg t g).graph).task =
      (failedHandler blockOk msg t g).task ∧
    (failedHandler blockOk msg
        (failedHandler blockOk msg t g).task
        (failedHandler blockOk msg t g).graph).graph =
      (failedHandler blockOk msg t g).graph ∧
    (failedHandler blockOk msg
        (failedHandler blockOk msg t g).task
        (failedHandler blockOk msg t g).graph).events = []) := by
  constructor
  · intro hs
    by_cases hd : t.dependents.length = 0
    · have hsec := checkRun_skips t.taskId
        (checkTaskGraphFinishedRun t.taskId g).1 (checkRun_not_mem t.taskId g)
      refine ⟨?_, ?_, ?_⟩ <;>
        simp [completedHandler, hs, hd, HandlerResult.task,
          HandlerResult.graph, HandlerResult.events, Effects.empty, hsec]
    · refine ⟨?_, ?_, ?_⟩ <;>
        simp [completedHandler, hs, hd, HandlerResult.task,
          HandlerResult.graph, HandlerResult.events, Effects.empty]
  · cases blockOk with
    | false =>
        refine ⟨?_, ?_, ?_⟩ <;>
          simp [failedHandler, blockTaskGraphWork, HandlerResult.task,
            HandlerResult.graph, HandlerResult.events, Effects.empty]
    | true =>
        have hnr := blockMutator_post_not_running g
        by_cases hr : g.state = GraphState.running <;>
          refine ⟨?_, ?_, ?_⟩ <;>
            simp [failedHandler, blockTaskGraphWork, blockMutator, hr,
              HandlerResult.task, HandlerResult.graph, HandlerResult.events,
              Effects.empty]

/-- Witness for amended C7 at concrete replays. -/
theorem replayIdempotent_amended_witness :
    (completedHandler loadNone true true msgCT
        (completedHandler loadNone true true msgCT tR gW).task
        (completedHandler loadNone true true msgCT tR gW).graph).task =
      (completedHandler loadNone true true msgCT tR gW).task ∧
    (failedHandler true msgFQ
        (failedHandler true msgFQ tF gW).task
        (failedHandler true msgFQ tF gW).graph).events = [] :=
  ⟨((replayIdempotent_amended loadNone loadNone true true true msgCT tR
      gW).1 rfl).1,
   (replayIdempotent_amended loadNone loadNone true true true msgFQ tF
      gW).2.2.2⟩

/-- Claim C10: under mutator-replay (optimistic-concurrency) semantics,
whenever the finish mutator's captured `taskGraphFinishedNow` flag is
true the committed graph's state is finished, and whenever the block
mutator's captured `wasRunning` flag is true the committed state is
blocked — so the assertions guarding the two publish calls never
fail. -/
theorem modifyAssertions_spec (tid : String) (conflicts : List TaskGraph)
    (g : TaskGraph) :
    ((modifyWithRetry (checkFinishedMutator tid) conflicts g).2 = true →
      (modifyWithRetry (checkFinishedMutator tid) conflicts g).1.state =
        GraphState.finished) ∧
    ((modifyWithRetry blockMutator conflicts g).2 = true →
      (modifyWithRetry blockMutator conflicts g).1.state =
        GraphState.blocked) := by
  induction conflicts generalizing g with
  | nil =>
      exact ⟨checkFinishedMutator_flag tid g, blockMutator_flag g⟩
  | cons g' rest ih =>
      simpa only [modifyWithRetry] using ih g'

/-- Witness for C10 with an empty conflict list. -/
theorem modifyAssertions_spec_witness :
    (modifyWithRetry (checkFinishedMutator "T") [] gW).1.state =
      GraphState.finished ∧
    (modifyWithRetry blockMutator [] gW).1.state = GraphState.blocked :=
  ⟨(modifyAssertions_spec "T" [] gW).1 (by decide),
   (modifyAssertions_spec "T" [] gW).2 (by decide)⟩

end Scheduler
